import Mathlib

/-!
Shallow embedding of the cf-webhook storage layer.

Sources embedded here:
- `src/lib/storage/d1-provider.ts` (`D1StorageProvider`, `MemoryStorageProvider`)
- `src/lib/storage/r2-provider.ts` (`R2StorageProvider`)
- `src/lib/storage/storage-manager.ts` (`StorageManager`)
- the environment helper (`isD1Available` / `isR2Available` /
  `getPreferredStorageProvider`)
- the `StorageError` class of the storage type module.

Conventions of the embedding:
- JS `Date` values are epoch milliseconds (`Int`), as produced by `getTime()`.
- JS `Map` objects are association lists in insertion order.
- `JSON.stringify`/`JSON.parse` of header and query-parameter maps is a
  round-trip on well-formed data, so serialized maps are kept as the maps
  themselves.
- `Array.prototype.sort` is stable in every modern engine; it is modelled by
  `List.insertionSort`, which is stable.
- Rational numbers stand for the JS floating-point percentage fields; every
  percentage computed by the source is a ratio of small integers, so the
  rational value is exact where the float is approximate.
-/

namespace CFWebhook

/-- Character-list test: `pat` occurs at the start of the list. -/
def charsPfx : List Char → List Char → Bool
  | [], _ => true
  | _ :: _, [] => false
  | a :: as, b :: bs => a == b && charsPfx as bs

/-- Substring occurrence test on character lists. -/
def charsContains (needle : List Char) : List Char → Bool
  | [] => charsPfx needle []
  | c :: rest => charsPfx needle (c :: rest) || charsContains needle rest

/-- JS `String.prototype.includes`. -/
def strContains (hay needle : String) : Bool :=
  charsContains needle.toList hay.toList

/-- JS `String.prototype.startsWith`. -/
def strHasPfx (s pat : String) : Bool :=
  charsPfx pat.toList s.toList

/-- JS `String.prototype.endsWith`. -/
def strHasSuffix (s pat : String) : Bool :=
  charsPfx pat.toList.reverse s.toList.reverse

/-- The `Map.prototype.get` on an insertion-ordered association list. -/
def amGet {β : Type} (m : List (String × β)) (k : String) : Option β :=
  (m.find? (fun p => p.fst == k)).map Prod.snd

/-- The `Map.prototype.has`. -/
def amHas {β : Type} (m : List (String × β)) (k : String) : Bool :=
  (amGet m k).isSome

/-- The `Map.prototype.set`: overwrite in place, or append a new entry. -/
def amSet {β : Type} (m : List (String × β)) (k : String) (v : β) :
    List (String × β) :=
  if amHas m k then m.map (fun p => if p.fst == k then (k, v) else p)
  else m ++ [(k, v)]

/-- The `Map.prototype.delete` (the removal effect). -/
def amErase {β : Type} (m : List (String × β)) (k : String) :
    List (String × β) :=
  m.filter (fun p => !(p.fst == k))

/-- Maximum of a list of integers, `Math.max(...)`; only used on nonempty
lists in the source. -/
def intListMax : List Int → Int
  | [] => 0
  | x :: xs => xs.foldl max x

/-- Maximum of a list of naturals. -/
def natListMax : List Nat → Nat
  | [] => 0
  | x :: xs => xs.foldl max x

/-- The `WebhookRequest` of the core type module. Optional JS fields are
`Option`s; `timestamp` is the capture instant in epoch milliseconds. -/
structure WebhookRequest where
  id : String
  webhookId : String
  method : String
  path : String
  headers : List (String × String)
  body : String
  queryParams : List (String × String)
  timestamp : Int
  ip : Option String
  userAgent : Option String
  contentType : Option String
  bodySize : Nat
deriving DecidableEq

/-- The `WebhookConfig` of the core type module; `createdAt` / `lastRequestAt`
are epoch milliseconds. -/
structure WebhookConfig where
  id : String
  name : Option String
  url : String
  isActive : Bool
  requestCount : Nat
  createdAt : Int
  lastRequestAt : Option Int
deriving DecidableEq

/-- The `StorageError` class. The `details` bag is modelled by the two
boolean flags its predicates read (`details.isBindingError`,
`details.isInitializationError`); the remediation payload carries no
behaviour. -/
structure StorageError where
  message : String
  provider : String
  operation : Option String
  isBindingErrorDetail : Bool
  isInitializationErrorDetail : Bool
deriving DecidableEq

/-- The `new StorageError(message, provider)`. -/
def StorageError.basic (message provider : String) : StorageError :=
  ⟨message, provider, none, false, false⟩

/-- The `StorageError.d1BindingNotFound`. -/
def StorageError.d1BindingNotFound
    (databaseBinding : String := "WEBHOOK_DB") : StorageError :=
  ⟨"D1 database binding \"" ++ databaseBinding ++
     "\" not found. Please configure the binding in your wrangler.toml file.",
   "d1", some "binding_check", true, false⟩

/-- The `StorageError.d1InitializationFailed` (the original error is folded into
the details bag, which the predicates do not read for this constructor). -/
def StorageError.d1InitializationFailed : StorageError :=
  ⟨"Failed to initialize D1 database. This usually indicates the D1 binding is not properly configured or the database is not accessible.",
   "d1", some "initialization", false, true⟩

/-- The `StorageError.isD1BindingError`. -/
def StorageError.isD1BindingError (e : StorageError) : Bool :=
  e.provider == "d1" &&
    (strContains e.message "database binding" ||
     strContains e.message "D1 database binding not found" ||
     strContains e.message "WEBHOOK_DB" ||
     e.isBindingErrorDetail)

/-- The `StorageError.isD1InitializationError`. -/
def StorageError.isD1InitializationError (e : StorageError) : Bool :=
  e.provider == "d1" &&
    (strContains e.message "initialization" ||
     strContains e.message "Failed to initialize D1" ||
     strContains e.message "prepare method" ||
     e.isInitializationErrorDetail)

end CFWebhook

namespace CFWebhook.Stats

/-- The `WebhookDistribution` entry of a statistics report. -/
structure WebhookDistribution where
  webhookId : String
  webhookName : Option String
  requestCount : Nat
  totalSize : Nat
  averageSize : ℚ
  lastRequestAt : Option Int
  isActive : Bool
  percentage : ℚ
deriving DecidableEq

/-- The `MethodDistribution` entry. -/
structure MethodDistribution where
  method : String
  count : Nat
  percentage : ℚ
  totalSize : Nat
deriving DecidableEq

/-- The `SizeDistribution` entry; `maxSize = -1` encodes the source's
`Infinity → -1` mapping. -/
structure SizeDistribution where
  sizeRange : String
  count : Nat
  percentage : ℚ
  minSize : Nat
  maxSize : Int
deriving DecidableEq

/-- The `TimeDistribution` entry. The human-readable `timeRange` label is
locale-formatted presentation text and is not modelled. -/
structure TimeDistribution where
  period : String
  count : Nat
  percentage : ℚ
deriving DecidableEq

/-- The `StorageStats`. -/
structure StorageStats where
  totalWebhooks : Nat
  totalRequests : Nat
  webhooksWithRequests : Nat
  webhookDistribution : List WebhookDistribution
  requestMethodDistribution : List MethodDistribution
  requestSizeDistribution : List SizeDistribution
  timeDistribution : List TimeDistribution
  totalSizeBytes : Nat
  averageRequestSize : ℚ
  largestRequestSize : Nat
  totalOperations : Nat
  uptime : Int
deriving DecidableEq

/-- The fixed size buckets shared by every backend's `getStats`:
(range label, min, max), `none` = `Infinity`. -/
def sizeRanges : List (String × Nat × Option Nat) :=
  [("0-1KB", 0, some 1024),
   ("1KB-10KB", 1024, some 10240),
   ("10KB-100KB", 10240, some 102400),
   ("100KB-1MB", 102400, some 1048576),
   ("1MB+", 1048576, none)]

/-- The fixed time buckets: (period label, hours), `none` = `Infinity`. -/
def timeRanges : List (String × Option Nat) :=
  [("Last Hour", some 1),
   ("Last 6 Hours", some 6),
   ("Last 24 Hours", some 24),
   ("Older", none)]

/-- Whether a body size falls into a size bucket (`size >= min && size < max`). -/
def inSizeRange (size : Nat) (lo : Nat) (hi : Option Nat) : Bool :=
  match hi with
  | some hi => lo ≤ size && size < hi
  | none => lo ≤ size

/-- The lower cutoff of a time bucket (`Infinity → epoch 0`). -/
def timeCutoff (now : Int) (hours : Option Nat) : Int :=
  match hours with
  | some h => now - h * 3600000
  | none => 0

/-- The upper cutoff of a time bucket, exactly as the source computes it. -/
def timeNextCutoff (now : Int) (hours : Option Nat) : Int :=
  match hours with
  | some 1 => now
  | none => now - 24 * 3600000
  | some h => now - (if h == 6 then 1 else 6) * 3600000

/-- Whether a capture timestamp is counted in a time bucket. -/
def inTimeRange (now : Int) (hours : Option Nat) (ts : Int) : Bool :=
  match hours with
  | none => ts < timeNextCutoff now hours
  | some _ => timeCutoff now hours ≤ ts && ts < timeNextCutoff now hours


/-- The method-distribution builder every backend's `getStats` runs (the
source duplicates this algorithm verbatim per backend; it is shared here):
group by method, count, percentage of total, total size, sorted by count
descending (stable). -/
def methodDistributionOf {α : Type} (method : α → String) (size : α → Nat)
    (l : List α) : List MethodDistribution :=
  let total := l.length
  (((l.map method).dedup).map (fun m =>
    let group := l.filter (fun x => method x == m)
    { method := m
      count := group.length
      percentage := if total > 0 then ((group.length : ℚ) / total) * 100
                    else 0
      totalSize := (group.map size).sum
      : MethodDistribution })).insertionSort (fun a b => b.count ≤ a.count)

/-- The size-distribution builder shared by every backend's `getStats`. -/
def sizeDistributionOf {α : Type} (size : α → Nat) (l : List α) :
    List SizeDistribution :=
  let total := l.length
  sizeRanges.map (fun r =>
    let count := (l.filter (fun x => inSizeRange (size x) r.snd.fst
      r.snd.snd)).length
    { sizeRange := r.fst
      count := count
      percentage := if total > 0 then ((count : ℚ) / total) * 100 else 0
      minSize := r.snd.fst
      maxSize := match r.snd.snd with
                 | some hi => (hi : Int)
                 | none => -1 })

/-- The time-distribution builder shared by every backend's `getStats`. -/
def timeDistributionOf {α : Type} (ts : α → Int) (now : Int) (l : List α) :
    List TimeDistribution :=
  let total := l.length
  timeRanges.map (fun r =>
    let count := (l.filter (fun x => inTimeRange now r.snd (ts x))).length
    { period := r.fst
      count := count
      percentage := if total > 0 then ((count : ℚ) / total) * 100 else 0
      : TimeDistribution })

end CFWebhook.Stats

namespace CFWebhook.Memory

open CFWebhook.Stats

/-- The storage configuration fields the volatile backend reads. -/
structure Config where
  retentionHours : Nat
  maxRequestsPerWebhook : Nat
deriving DecidableEq

/-- The mutable fields of `MemoryStorageProvider`: per-webhook request lists
(newest first), configs, construction time and the operation counter. -/
structure State where
  requests : List (String × List WebhookRequest)
  configs : List (String × WebhookConfig)
  createdAt : Int
  totalOperations : Nat
deriving DecidableEq

/-- A fresh provider instance constructed at `createdAt`. -/
def State.empty (createdAt : Int) : State := ⟨[], [], createdAt, 0⟩

/-- The `MemoryStorageProvider.saveRequest`: unshift onto the per-webhook list,
then `splice(maxRequestsPerWebhook)` when the list has grown past the cap. -/
def saveRequest (cfg : Config) (st : State) (webhookId : String)
    (request : WebhookRequest) : State :=
  let rs := request :: (amGet st.requests webhookId).getD []
  let rs := if rs.length > cfg.maxRequestsPerWebhook
            then rs.take cfg.maxRequestsPerWebhook else rs
  { st with requests := amSet st.requests webhookId rs,
            totalOperations := st.totalOperations + 1 }

/-- The `MemoryStorageProvider.getRequests`: `slice(offset, offset + limit)` of
the per-webhook list. -/
def getRequests (st : State) (webhookId : String)
    (limit : Nat := 100) (offset : Nat := 0) : State × List WebhookRequest :=
  ({ st with totalOperations := st.totalOperations + 1 },
   (((amGet st.requests webhookId).getD []).drop offset).take limit)

/-- The `MemoryStorageProvider.deleteRequest`: filter by id, report whether the
length changed. -/
def deleteRequest (st : State) (webhookId requestId : String) :
    State × Bool :=
  let st' := { st with totalOperations := st.totalOperations + 1 }
  match amGet st.requests webhookId with
  | none => (st', false)
  | some rs =>
      let filtered := rs.filter (fun r => !(r.id == requestId))
      if filtered.length ≠ rs.length then
        ({ st' with requests := amSet st.requests webhookId filtered }, true)
      else (st', false)

/-- The `MemoryStorageProvider.clearRequests`. -/
def clearRequests (st : State) (webhookId : String) : State :=
  { st with requests := amErase st.requests webhookId,
            totalOperations := st.totalOperations + 1 }

/-- The `MemoryStorageProvider.saveWebhookConfig`. -/
def saveWebhookConfig (st : State) (config : WebhookConfig) : State :=
  { st with configs := amSet st.configs config.id config,
            totalOperations := st.totalOperations + 1 }

/-- The `MemoryStorageProvider.getWebhookConfig`. -/
def getWebhookConfig (st : State) (webhookId : String) :
    State × Option WebhookConfig :=
  ({ st with totalOperations := st.totalOperations + 1 },
   amGet st.configs webhookId)

/-- The `MemoryStorageProvider.getAllWebhookConfigs`: values sorted by
`createdAt` descending (stable sort). -/
def getAllWebhookConfigs (st : State) : State × List WebhookConfig :=
  ({ st with totalOperations := st.totalOperations + 1 },
   (st.configs.map Prod.snd).insertionSort
     (fun a b => b.createdAt ≤ a.createdAt))

/-- The `MemoryStorageProvider.deleteWebhookConfig`: drop the config; only when
it existed, also drop the webhook's requests. Returns whether it existed. -/
def deleteWebhookConfig (st : State) (webhookId : String) : State × Bool :=
  let existed := amHas st.configs webhookId
  ({ st with configs := amErase st.configs webhookId,
             requests := if existed then amErase st.requests webhookId
                         else st.requests,
             totalOperations := st.totalOperations + 1 },
   existed)

/-- The `MemoryStorageProvider.cleanupExpiredRequests`: per webhook, keep the
requests strictly newer than the cutoff; counts deletions. Entries whose
list did not shrink are left untouched (same net content either way). -/
def cleanupExpiredRequests (st : State) (retentionHours : Nat) (now : Int) :
    State × Nat :=
  let cutoffTime := now - retentionHours * 3600000
  let newEntries := st.requests.map
    (fun p => (p.fst, p.snd.filter (fun r => cutoffTime < r.timestamp)))
  let totalDeleted :=
    ((st.requests.map (fun p => p.snd.length)).sum) -
      ((newEntries.map (fun p => p.snd.length)).sum)
  ({ st with requests := newEntries,
             totalOperations := st.totalOperations + 1 },
   totalDeleted)

/-- All stored requests, in map-iteration (insertion) order. -/
def allRequestsOf (st : State) : List WebhookRequest :=
  (st.requests.map Prod.snd).flatten

/-- The per-webhook distribution rows of `MemoryStorageProvider.getStats`,
before the sort: one entry per key of the requests map. -/
def webhookDistributionOf (st : State) : List WebhookDistribution :=
  let totalRequests := (allRequestsOf st).length
  st.requests.map (fun p =>
    let rs := p.snd
    let config := amGet st.configs p.fst
    let totalSize := (rs.map (fun r => r.bodySize)).sum
    { webhookId := p.fst
      webhookName := config.bind (fun c => c.name)
      requestCount := rs.length
      totalSize := totalSize
      averageSize := if rs.length > 0 then (totalSize : ℚ) / rs.length else 0
      lastRequestAt := if rs.length > 0
                       then some (intListMax (rs.map (fun r => r.timestamp)))
                       else none
      isActive := (config.map (fun c => c.isActive)).getD false
      percentage := if totalRequests > 0
                    then ((rs.length : ℚ) / totalRequests) * 100 else 0 })

/-- The `MemoryStorageProvider.getStats`, evaluated at wall-clock `now`. -/
def getStats (st : State) (now : Int) : StorageStats :=
  let allRequests := allRequestsOf st
  let totalRequests := allRequests.length
  let totalSizeBytes := (allRequests.map (fun r => r.bodySize)).sum
  { totalWebhooks := st.configs.length
    totalRequests := totalRequests
    webhooksWithRequests := st.requests.length
    webhookDistribution := (webhookDistributionOf st).insertionSort
      (fun a b => b.requestCount ≤ a.requestCount)
    requestMethodDistribution := methodDistributionOf (fun r => r.method)
      (fun r => r.bodySize) allRequests
    requestSizeDistribution := sizeDistributionOf (fun r => r.bodySize)
      allRequests
    timeDistribution := timeDistributionOf (fun r => r.timestamp) now
      allRequests
    totalSizeBytes := totalSizeBytes
    averageRequestSize := if totalRequests > 0
                          then (totalSizeBytes : ℚ) / totalRequests else 0
    largestRequestSize := if totalRequests > 0
                          then natListMax (allRequests.map (fun r => r.bodySize))
                          else 0
    totalOperations := st.totalOperations
    uptime := now - st.createdAt }

end CFWebhook.Memory

namespace CFWebhook.D1

open CFWebhook.Stats

/-- One row of the `{pfx}_requests` table, with the columns the insert in
`D1StorageProvider.saveRequest` binds. Serialized header / query maps are
kept as maps (the JSON round-trip is the identity on them). -/
structure RequestRow where
  id : String
  webhook_id : String
  method : String
  path : String
  headers : List (String × String)
  body : String
  query_params : List (String × String)
  ip : String
  user_agent : String
  content_type : String
  body_size : Nat
  timestamp : Int
deriving DecidableEq

/-- One row of the `{pfx}_configs` table. `is_active` stands for the stored
`1`/`0` integer; `created_at` and `last_request_at` hold exactly the integers
the insert binds. -/
structure ConfigRow where
  id : String
  name : String
  url : String
  is_active : Bool
  request_count : Nat
  created_at : Int
  last_request_at : Option Int
deriving DecidableEq

/-- The two tables of an initialized D1 database. -/
structure State where
  requests : List RequestRow
  configs : List ConfigRow
deriving DecidableEq

def State.empty : State := ⟨[], []⟩

/-- The row the insert in `saveRequest` binds (`x || ''` / `x || 0`
defaulting of the optional fields, `timestamp.getTime()`). -/
def rowOfRequest (webhookId : String) (r : WebhookRequest) : RequestRow :=
  { id := r.id
    webhook_id := webhookId
    method := r.method
    path := r.path
    headers := r.headers
    body := r.body
    query_params := r.queryParams
    ip := r.ip.getD ""
    user_agent := r.userAgent.getD ""
    content_type := r.contentType.getD ""
    body_size := r.bodySize
    timestamp := r.timestamp }

/-- The `D1StorageProvider.saveRequest`, happy path of the `INSERT` against an
existing table: appends a row; a duplicate primary key is an engine error. -/
def saveRequest (st : State) (webhookId : String) (r : WebhookRequest) :
    Except StorageError State :=
  if st.requests.any (fun row => row.id == r.id) then
    .error (StorageError.basic
      "Failed to save request: UNIQUE constraint failed" "d1")
  else
    .ok { st with requests := st.requests ++ [rowOfRequest webhookId r] }

/-- The `D1StorageProvider.rowToWebhookRequest` (`row.x || undefined` turns the
empty string back into an absent field). -/
def rowToWebhookRequest (row : RequestRow) : WebhookRequest :=
  { id := row.id
    webhookId := row.webhook_id
    method := row.method
    path := row.path
    headers := row.headers
    body := row.body
    queryParams := row.query_params
    timestamp := row.timestamp
    ip := if row.ip == "" then none else some row.ip
    userAgent := if row.user_agent == "" then none else some row.user_agent
    contentType := if row.content_type == "" then none else some row.content_type
    bodySize := row.body_size }

/-- The `D1StorageProvider.getRequests`:
`WHERE webhook_id = ? ORDER BY timestamp DESC LIMIT ? OFFSET ?`. Rows with
equal timestamps are kept in table order (one refinement of the engine's
unspecified tie order). -/
def getRequests (st : State) (webhookId : String)
    (limit : Nat := 100) (offset : Nat := 0) : List WebhookRequest :=
  ((((st.requests.filter (fun row => row.webhook_id == webhookId)).insertionSort
      (fun a b => b.timestamp ≤ a.timestamp)).drop offset).take limit).map
    rowToWebhookRequest

/-- The `D1StorageProvider.deleteRequest`: `DELETE WHERE webhook_id = ? AND
id = ?`, returning `meta.changes > 0`. -/
def deleteRequest (st : State) (webhookId requestId : String) :
    State × Bool :=
  let changes := (st.requests.filter
    (fun row => row.webhook_id == webhookId && row.id == requestId)).length
  ({ st with requests := (st.requests.filter
      (fun row => !(row.webhook_id == webhookId && row.id == requestId))) },
   changes > 0)

/-- The `D1StorageProvider.clearRequests`: `DELETE WHERE webhook_id = ?`. -/
def clearRequests (st : State) (webhookId : String) : State :=
  { st with requests := (st.requests.filter
      (fun row => !(row.webhook_id == webhookId))) }

/-- The `D1StorageProvider.saveWebhookConfig`: `INSERT OR REPLACE` binding
`config.createdAt.getTime()` (epoch milliseconds) into `created_at` and
likewise for `last_request_at`. -/
def saveWebhookConfig (st : State) (c : WebhookConfig) : State :=
  let row : ConfigRow :=
    { id := c.id
      name := c.name.getD ""
      url := c.url
      is_active := c.isActive
      request_count := c.requestCount
      created_at := c.createdAt
      last_request_at := c.lastRequestAt }
  { st with configs := (st.configs.filter (fun r => !(r.id == c.id))) ++ [row] }

/-- The `D1StorageProvider.rowToWebhookConfig`: multiplies the stored config
timestamps by 1000 ("convert from Unix timestamp"); a stored
`last_request_at` of `0` is falsy and becomes absent. -/
def rowToWebhookConfig (row : ConfigRow) : WebhookConfig :=
  { id := row.id
    name := if row.name == "" then none else some row.name
    url := row.url
    isActive := row.is_active
    requestCount := row.request_count
    createdAt := row.created_at * 1000
    lastRequestAt := match row.last_request_at with
                     | some t => if t == 0 then none else some (t * 1000)
                     | none => none }

/-- The `D1StorageProvider.getWebhookConfig`. -/
def getWebhookConfig (st : State) (webhookId : String) :
    Option WebhookConfig :=
  (st.configs.find? (fun row => row.id == webhookId)).map rowToWebhookConfig

/-- The `D1StorageProvider.getAllWebhookConfigs`: `ORDER BY created_at DESC`. -/
def getAllWebhookConfigs (st : State) : List WebhookConfig :=
  ((st.configs.insertionSort
    (fun a b => b.created_at ≤ a.created_at)).map rowToWebhookConfig)

/-- The `D1StorageProvider.deleteWebhookConfig`: deletes the config row only
(the requests table is untouched), returning `meta.changes > 0`. -/
def deleteWebhookConfig (st : State) (webhookId : String) : State × Bool :=
  let changes := (st.configs.filter (fun row => row.id == webhookId)).length
  ({ st with configs := st.configs.filter (fun row => !(row.id == webhookId)) },
   changes > 0)

/-- The `D1StorageProvider.cleanupExpiredRequests`:
`DELETE WHERE timestamp < cutoff`, returning `meta.changes`. -/
def cleanupExpiredRequests (st : State) (retentionHours : Nat) (now : Int) :
    State × Nat :=
  let cutoffTime := now - retentionHours * 3600000
  let deleted := (st.requests.filter
    (fun row => row.timestamp < cutoffTime)).length
  ({ st with requests := (st.requests.filter
      (fun row => !(row.timestamp < cutoffTime))) },
   deleted)

/-- All request rows as `getStats` reads them (`ORDER BY timestamp DESC`). -/
def allRequestsOf (st : State) : List RequestRow :=
  st.requests.insertionSort (fun a b => b.timestamp ≤ a.timestamp)

/-- The per-webhook distribution rows of `D1StorageProvider.getStats`,
before the sort: one entry per config row, aggregating exactly the request
rows carrying that webhook id (the source's `webhookStats` fold). Request
rows whose webhook id has no config row contribute to no entry. -/
def webhookDistributionOf (st : State) : List WebhookDistribution :=
  let allRequests := allRequestsOf st
  let totalRequests := allRequests.length
  (getAllWebhookConfigs st).map (fun c =>
    let group := allRequests.filter (fun row => row.webhook_id == c.id)
    let totalSize := (group.map (fun row => row.body_size)).sum
    { webhookId := c.id
      webhookName := c.name
      requestCount := group.length
      totalSize := totalSize
      averageSize := if group.length > 0
                     then (totalSize : ℚ) / group.length else 0
      lastRequestAt := if group.length > 0
                       then some (intListMax
                         (group.map (fun row => row.timestamp)))
                       else none
      isActive := c.isActive
      percentage := if totalRequests > 0
                    then ((group.length : ℚ) / totalRequests) * 100 else 0 })

/-- The `D1StorageProvider.getStats`, evaluated at wall-clock `now`. -/
def getStats (st : State) (now : Int) : StorageStats :=
  let allRequests := allRequestsOf st
  let totalRequests := allRequests.length
  let totalSizeBytes := (allRequests.map (fun row => row.body_size)).sum
  { totalWebhooks := (getAllWebhookConfigs st).length
    totalRequests := totalRequests
    webhooksWithRequests :=
      ((webhookDistributionOf st).filter (fun w => w.requestCount > 0)).length
    webhookDistribution := (webhookDistributionOf st).insertionSort
      (fun a b => b.requestCount ≤ a.requestCount)
    requestMethodDistribution := methodDistributionOf
      (fun row => row.method) (fun row => row.body_size) allRequests
    requestSizeDistribution := sizeDistributionOf (fun row => row.body_size)
      allRequests
    timeDistribution := timeDistributionOf (fun row => row.timestamp) now
      allRequests
    totalSizeBytes := totalSizeBytes
    averageRequestSize := if totalRequests > 0
                          then (totalSizeBytes : ℚ) / totalRequests else 0
    largestRequestSize := if totalRequests > 0
                          then natListMax
                            (allRequests.map (fun row => row.body_size))
                          else 0
    totalOperations := 0
    uptime := 0 }

/-- Outcome of one engine-level `INSERT` attempt inside
`D1StorageProvider.saveRequest`. -/
inductive InsertOutcome where
  | ok
  | fail (msg : String)
deriving DecidableEq

/-- Observable result of the `saveRequest` control flow of the D1 backend:
the surfaced result, how many insert attempts ran, how many times
`initialize()` ran, and the final `initialized` flag. -/
structure SaveControl where
  result : Except StorageError Unit
  insertAttempts : Nat
  initRuns : Nat
  finalInitialized : Bool

/-- The error-handling control flow of `D1StorageProvider.saveRequest`
(initialization itself succeeding): `ensureInitialized`, one insert; on a
failure whose message contains `'no such table'`, clear the `initialized`
flag, re-run initialization and retry the insert exactly once, wrapping a
retry failure; surface any other failure without retrying. -/
def saveRequestControl (initialized : Bool)
    (firstInsert secondInsert : InsertOutcome) : SaveControl :=
  let initRuns0 : Nat := if initialized then 0 else 1
  match firstInsert with
  | .ok => ⟨.ok (), 1, initRuns0, true⟩
  | .fail msg =>
      if strContains msg "no such table" then
        match secondInsert with
        | .ok => ⟨.ok (), 2, initRuns0 + 1, true⟩
        | .fail msg2 =>
            ⟨.error (StorageError.basic
               ("Failed to save request after retry: " ++ msg2) "d1"),
             2, initRuns0 + 1, true⟩
      else
        ⟨.error (StorageError.basic
           ("Failed to save request: " ++ msg) "d1"),
         1, initRuns0, true⟩

end CFWebhook.D1

namespace CFWebhook.R2

/-- Body of a stored object: the JSON serialization of a request, or bytes
that `JSON.parse` rejects. (Config objects live under a different key
space and are never fetched by the request operations modelled here.) -/
inductive Body where
  | requestJson (r : WebhookRequest)
  | invalidJson (raw : String)
deriving DecidableEq

/-- One stored object: key, body, and the store's own upload instant. -/
structure Obj where
  key : String
  body : Body
  uploaded : Int
deriving DecidableEq

/-- An R2 bucket: a flat set of keyed objects (keys unique). -/
structure Bucket where
  objects : List Obj
deriving DecidableEq

/-- The `bucket.put`: upsert by key; the store assigns the upload time. -/
def put (b : Bucket) (key : String) (body : Body) (uploaded : Int) : Bucket :=
  ⟨(b.objects.filter (fun o => !(o.key == key))) ++ [⟨key, body, uploaded⟩]⟩

/-- The `bucket.get`. -/
def get (b : Bucket) (key : String) : Option Body :=
  (b.objects.find? (fun o => o.key == key)).map (fun o => o.body)

/-- The `bucket.delete`: removes the object if present; deleting an absent key
succeeds silently. -/
def del (b : Bucket) (key : String) : Bucket :=
  ⟨b.objects.filter (fun o => !(o.key == key))⟩

/-- The `bucket.list({ prefix, limit })`: matching keys in lexicographic key
order, truncated to `limit`. -/
def list (b : Bucket) (keyPfx : String) (limit : Nat) : List Obj :=
  ((b.objects.filter (fun o => strHasPfx o.key keyPfx)).insertionSort
    (fun a b => ¬ b.key < a.key)).take limit

/-- The `getRequestPath(webhookId)`: the per-webhook base path. -/
def requestBase (pathPfx webhookId : String) : String :=
  pathPfx ++ "/requests/" ++ webhookId

/-- The `getRequestPath(webhookId, requestId)`. -/
def requestKey (pathPfx webhookId requestId : String) : String :=
  requestBase pathPfx webhookId ++ "/" ++ requestId ++ ".json"

/-- The `getWebhookConfigPath(webhookId)`. -/
def configKey (pathPfx webhookId : String) : String :=
  pathPfx ++ "/configs/" ++ webhookId ++ ".json"

/-- The `R2StorageProvider.saveRequest`: store the serialized request at its
key (metadata is attached but drives no behaviour). -/
def saveRequest (b : Bucket) (pathPfx webhookId : String)
    (r : WebhookRequest) (now : Int) : Bucket :=
  put b (requestKey pathPfx webhookId r.id) (.requestJson r) now

/-- The `JSON.parse(data) as WebhookRequest` (plus re-wrapping the timestamp):
succeeds exactly on bodies that are valid JSON. -/
def parseRequestBody : Body → Option WebhookRequest
  | .requestJson r => some r
  | .invalidJson _ => none

/-- The listing/sort/slice half of `R2StorageProvider.getRequests`: list with
`limit: limit + offset`, keep `.json` keys, sort by upload time descending,
`slice(offset, offset + limit)`. -/
def listedSlice (listSnapshot : Bucket) (pathPfx webhookId : String)
    (limit offset : Nat) : List Obj :=
  ((((list listSnapshot (requestBase pathPfx webhookId)
        (limit + offset)).filter
      (fun o => strHasSuffix o.key ".json")).insertionSort
    (fun a b => b.uploaded ≤ a.uploaded)).drop offset).take limit

/-- The `R2StorageProvider.getRequests`: fetch each surviving object; an object
that no longer exists (`!object → continue`) or fails to parse
(`catch → continue`) is skipped. `listSnapshot` is the bucket the listing
saw; `current` is the bucket each `get` runs against (they coincide unless a
concurrent writer intervened between the two). -/
def getRequests (listSnapshot current : Bucket) (pathPfx webhookId : String)
    (limit : Nat := 100) (offset : Nat := 0) : List WebhookRequest :=
  (listedSlice listSnapshot pathPfx webhookId limit offset).foldl
    (fun acc o =>
      match get current o.key with
      | none => acc
      | some body =>
          match parseRequestBody body with
          | none => acc
          | some r => acc ++ [r]) []

/-- The `R2StorageProvider.deleteRequest`: delete the key and return `true`;
only a thrown engine failure (not modelled) reaches the `false` branch. -/
def deleteRequest (b : Bucket) (pathPfx webhookId requestId : String) :
    Bucket × Bool :=
  (del b (requestKey pathPfx webhookId requestId), true)

/-- The `R2StorageProvider.deleteWebhookConfig`: delete the config key and
return `true`. -/
def deleteWebhookConfig (b : Bucket) (pathPfx webhookId : String) :
    Bucket × Bool :=
  (del b (configKey pathPfx webhookId), true)

end CFWebhook.R2

namespace CFWebhook.Manager

/-- The wrapper `StorageManager` puts around every delegated operation
except `isHealthy`: pass the call through; on exception, log backend type
and truncated instance id, then re-throw the same error. -/
def delegate {α : Type} (call : Except StorageError α) :
    Except StorageError α :=
  match call with
  | .ok a => .ok a
  | .error e => .error e

/-- The `StorageManager.isHealthy`: pass the result through, but a thrown error
is caught, logged, and converted into the ordinary return value `false`. -/
def isHealthy (call : Except StorageError Bool) : Except StorageError Bool :=
  match call with
  | .ok b => .ok b
  | .error _ => .ok false

end CFWebhook.Manager

namespace CFWebhook.EnvHelper

/-- The observable shape of a `WEBHOOK_DB` binding object: whether
`typeof database.prepare === 'function'`. -/
structure D1Binding where
  hasPrepareMethod : Bool
deriving DecidableEq

/-- The environment snapshot `getPreferredStorageProvider` inspects:
the two bindings, the `STORAGE_PROVIDER` setting, and whether
`process.env.NODE_ENV === 'production'`. -/
structure EnvSnapshot where
  webhookDb : Option D1Binding
  webhookStorage : Bool
  storageProviderSetting : Option String
  nodeEnvProduction : Bool
deriving DecidableEq

/-- The three backend identifiers resolution can produce. -/
inductive StorageKind where
  | r2
  | d1
  | memory
deriving DecidableEq

/-- A resolution failure: a thrown `StorageError`, or a plain `Error`
carrying only a message. -/
inductive ResolveFailure where
  | storageErr (e : StorageError)
  | jsError (message : String)
deriving DecidableEq

/-- A successful resolution: the chosen backend plus the `console.warn`
messages emitted on the way. -/
structure Resolution where
  provider : StorageKind
  warnings : List String
deriving DecidableEq

/-- The `isD1Available`: the binding must exist and expose a query-preparation
method; a binding without one is treated as absent. -/
def isD1Available (env : EnvSnapshot) : Bool :=
  match env.webhookDb with
  | none => false
  | some db => db.hasPrepareMethod

/-- The `isR2Available`. -/
def isR2Available (env : EnvSnapshot) : Bool :=
  env.webhookStorage

/-- The warning logged when resolution falls back to memory storage. -/
def memoryFallbackWarning : String :=
  "No persistent storage bindings found, using memory storage for development"

/-- The hard error raised in production when nothing is configured. -/
def productionNoStorageMsg : String :=
  "No storage provider configured for production environment. Please set STORAGE_PROVIDER environment variable to \"d1\" or \"r2\" and configure the corresponding bindings."

/-- The `getPreferredStorageProvider`. An explicit `"d1"`/`"r2"` setting demands
the binding; `"memory"` always succeeds; an unset (or empty, hence falsy)
setting auto-detects, refusing to fall back to memory in production; any
other literal is a configuration error. -/
def getPreferredStorageProvider (env : EnvSnapshot) :
    Except ResolveFailure Resolution :=
  if env.storageProviderSetting == some "d1" then
    if !(isD1Available env) then
      .error (.storageErr (StorageError.d1BindingNotFound "WEBHOOK_DB"))
    else .ok ⟨.d1, []⟩
  else if env.storageProviderSetting == some "r2" then
    if !(isR2Available env) then
      .error (.jsError "STORAGE_PROVIDER is set to \"r2\" but WEBHOOK_STORAGE binding is not available. Please check your wrangler.toml configuration or remove STORAGE_PROVIDER to auto-detect.")
    else .ok ⟨.r2, []⟩
  else if env.storageProviderSetting == some "memory" then
    .ok ⟨.memory, []⟩
  else if env.storageProviderSetting == none
       || env.storageProviderSetting == some "" then
    if isD1Available env then .ok ⟨.d1, []⟩
    else if isR2Available env then .ok ⟨.r2, []⟩
    else if env.nodeEnvProduction then .error (.jsError productionNoStorageMsg)
    else .ok ⟨.memory, [memoryFallbackWarning]⟩
  else
    .error (.jsError ("Unknown STORAGE_PROVIDER \""
      ++ (env.storageProviderSetting.getD "") ++
      "\". Supported values are: \"d1\", \"r2\", \"memory\""))

end CFWebhook.EnvHelper

namespace CFWebhook

/-- A filter shrinks the length exactly when some element fails the
predicate. -/
lemma length_filter_ne_iff {α : Type} {p : α → Bool} {l : List α} :
    (l.filter p).length ≠ l.length ↔ ∃ x ∈ l, p x = false := by
  constructor
  · intro h
    by_contra hc
    push_neg at hc
    have hall : ∀ x ∈ l, p x = true := by
      intro x hx
      cases hpx : p x with
      | false => exact absurd hpx (hc x hx)
      | true => rfl
    exact h (by rw [List.filter_eq_self.mpr hall])
  · rintro ⟨x, hx, hpx⟩ h
    have hsub : (l.filter p).Sublist l := List.filter_sublist l
    have : l.filter p = l := hsub.eq_of_length h
    have := (List.filter_eq_self.mp this) x hx
    simp [hpx] at this

/-- Filtering is idempotent. -/
lemma filter_idem {α : Type} (p : α → Bool) (l : List α) :
    (l.filter p).filter p = l.filter p := by
  rw [List.filter_filter]
  simp

/-- The `Map.set` walks past an entry whose key differs. -/
lemma amSet_cons_of_ne {β : Type} (p : String × β) (rest : List (String × β))
    (k : String) (v : β) (hp : (p.fst == k) = false) :
    amSet (p :: rest) k v = p :: amSet rest k v := by
  unfold amSet amHas amGet
  rw [List.find?_cons_of_neg _ (by simp [hp])]
  by_cases hr : (Option.map Prod.snd
      (List.find? (fun q => q.fst == k) rest)).isSome = true
  · rw [if_pos hr, if_pos hr, List.map_cons, if_neg (by simp [hp])]
  · rw [if_neg hr, if_neg hr, List.cons_append]

/-- The `Map.get` after `Map.set` of the same key. -/
lemma amGet_amSet {β : Type} (m : List (String × β)) (k : String) (v : β) :
    amGet (amSet m k v) k = some v := by
  induction m with
  | nil =>
      unfold amSet amHas amGet
      simp
  | cons p rest ih =>
      by_cases hp : (p.fst == k) = true
      · have hhas : amHas (p :: rest) k = true := by
          simp [amHas, amGet, List.find?_cons, hp]
        unfold amSet
        rw [if_pos hhas, List.map_cons, if_pos hp]
        simp [amGet, List.find?_cons]
      · have hp' : (p.fst == k) = false := by
          cases h : p.fst == k
          · rfl
          · exact absurd h hp
        rw [amSet_cons_of_ne p rest k v hp']
        unfold amGet
        rw [List.find?_cons_of_neg _ (by simp [hp'])]
        exact ih

/-- The `Map.get` after `Map.delete` of the same key. -/
lemma amGet_amErase {β : Type} (m : List (String × β)) (k : String) :
    amGet (amErase m k) k = none := by
  unfold amGet amErase
  have hf : List.find? (fun p => p.fst == k)
      (m.filter (fun p => !(p.fst == k))) = none := by
    rw [List.find?_eq_none]
    intro x hx
    have := List.of_mem_filter hx
    simpa using this
  rw [hf]
  rfl

/-- The per-webhook list after `Memory.deleteRequest` retains no request
with the deleted id. -/
lemma memory_deleteRequest_stored (st : Memory.State) (wid rid : String) :
    ∀ r ∈ (amGet (Memory.deleteRequest st wid rid).fst.requests wid).getD [],
      (r.id == rid) = false := by
  unfold Memory.deleteRequest
  cases hg : amGet st.requests wid with
  | none =>
      dsimp only
      rw [hg]
      simp
  | some rs =>
      dsimp only
      by_cases hne : (rs.filter (fun r => !(r.id == rid))).length ≠ rs.length
      · rw [if_pos hne]
        dsimp only
        rw [amGet_amSet]
        intro r hr
        simp only [Option.getD_some] at hr
        have h2 := List.of_mem_filter hr
        cases h3 : r.id == rid
        · rfl
        · rw [h3] at h2
          simp at h2
      · rw [if_neg hne]
        dsimp only
        rw [hg]
        rw [length_filter_ne_iff] at hne
        push_neg at hne
        intro r hr
        simp only [Option.getD_some] at hr
        have h4 := hne r hr
        cases h3 : r.id == rid
        · rfl
        · exact absurd (by rw [h3]; rfl) h4

/-- The `Memory.deleteRequest` reports `true` exactly when a stored request of
that webhook has the id. -/
lemma memory_deleteRequest_snd_iff (st : Memory.State) (wid rid : String) :
    (Memory.deleteRequest st wid rid).snd = true ↔
      ∃ r ∈ (amGet st.requests wid).getD [], r.id = rid := by
  unfold Memory.deleteRequest
  cases hg : amGet st.requests wid with
  | none => simp
  | some rs =>
      dsimp only [Option.getD_some]
      by_cases hne : (rs.filter (fun r => !(r.id == rid))).length ≠ rs.length
      · rw [if_pos hne]
        rw [length_filter_ne_iff] at hne
        obtain ⟨x, hx, hpx⟩ := hne
        have hxid : x.id = rid := by
          cases h3 : x.id == rid
          · rw [h3] at hpx
            simp at hpx
          · exact eq_of_beq h3
        constructor
        · intro _
          exact ⟨x, hx, hxid⟩
        · intro _
          rfl
      · rw [if_neg hne]
        rw [length_filter_ne_iff] at hne
        constructor
        · intro h
          exact absurd h Bool.false_ne_true
        · rintro ⟨r, hr, hrid⟩
          exact absurd ⟨r, hr, by simp [hrid]⟩ hne

/-- The `D1.deleteRequest` reports `true` exactly when a matching row exists. -/
lemma d1_deleteRequest_snd_iff (st : D1.State) (wid rid : String) :
    (D1.deleteRequest st wid rid).snd = true ↔
      ∃ row ∈ st.requests, row.webhook_id = wid ∧ row.id = rid := by
  unfold D1.deleteRequest
  dsimp only
  rw [decide_eq_true_eq]
  constructor
  · intro h
    rcases List.exists_mem_of_length_pos h with ⟨row, hrow⟩
    have hp := List.of_mem_filter hrow
    simp only [Bool.and_eq_true, beq_iff_eq] at hp
    exact ⟨row, List.mem_of_mem_filter hrow, hp⟩
  · rintro ⟨row, hrow, hwid, hrid⟩
    have hm : row ∈ st.requests.filter
        (fun row => row.webhook_id == wid && row.id == rid) :=
      List.mem_filter.mpr ⟨hrow, by simp [hwid, hrid]⟩
    exact Nat.lt_of_lt_of_le Nat.zero_lt_one
      (List.length_pos_of_mem hm)

/-- C6 counterexample: the claim includes the `isHealthy` wrapper among the
operations that re-throw unchanged, but `StorageManager.isHealthy` catches
a backend error and converts it into the ordinary return value `false`. -/
theorem c6_manager_counterexample :
    Manager.isHealthy (Except.error (StorageError.basic "boom" "memory")) =
      Except.ok false ∧
    (Except.ok false : Except StorageError Bool) ≠
      Except.error (StorageError.basic "boom" "memory") := by
  refine ⟨rfl, fun h => Except.noConfusion h⟩

/-- C6 (amended): every delegated operation of the Storage Manager other
than `isHealthy` logs and re-throws the backend's error unchanged and
passes successful results through; `isHealthy` passes results through but
converts a thrown error into the ordinary return value `false`. -/
theorem c6_manager_amended :
    (∀ (α : Type) (e : StorageError),
        Manager.delegate (α := α) (Except.error e) = Except.error e) ∧
    (∀ (α : Type) (a : α), Manager.delegate (Except.ok a) = Except.ok a) ∧
    (∀ e : StorageError,
        Manager.isHealthy (Except.error e) = Except.ok false) ∧
    (∀ b : Bool, Manager.isHealthy (Except.ok b) = Except.ok b) :=
  ⟨fun _ _ => rfl, fun _ _ => rfl, fun _ => rfl, fun _ => rfl⟩

/-- C7 counterexample: on the object backend, deleting a request id that
does not exist (the bucket is empty) still returns `true`, where the claim
requires `false`. -/
theorem c7_delete_counterexample :
    R2.get ⟨[]⟩ (R2.requestKey "cf-webhook" "w1" "r1") = none ∧
    (R2.deleteRequest ⟨[]⟩ "cf-webhook" "w1" "r1").snd = true :=
  ⟨rfl, rfl⟩

/-- C7 (amended): on the memory and table backends `deleteRequest` returns
`true` exactly when a request with that id is stored for the webhook — so
`false` for a non-existent id, `true` once for an existing id, and `false`
on a repeated call — and never throws (it is a total function here). On
the object backend `deleteRequest` returns `true` unconditionally, whether
or not the request existed. -/
theorem c7_delete_amended :
    (∀ (st : Memory.State) (wid rid : String),
        (Memory.deleteRequest st wid rid).snd = true ↔
          ∃ r ∈ (amGet st.requests wid).getD [], r.id = rid) ∧
    (∀ (st : Memory.State) (wid rid : String),
        (Memory.deleteRequest (Memory.deleteRequest st wid rid).fst wid
          rid).snd = false) ∧
    (∀ (st : D1.State) (wid rid : String),
        (D1.deleteRequest st wid rid).snd = true ↔
          ∃ row ∈ st.requests, row.webhook_id = wid ∧ row.id = rid) ∧
    (∀ (st : D1.State) (wid rid : String),
        (D1.deleteRequest (D1.deleteRequest st wid rid).fst wid rid).snd =
          false) ∧
    (∀ (b : R2.Bucket) (pathPfx wid rid : String),
        (R2.deleteRequest b pathPfx wid rid).snd = true) := by
  refine ⟨memory_deleteRequest_snd_iff, ?_, d1_deleteRequest_snd_iff, ?_,
    fun _ _ _ _ => rfl⟩
  · intro st wid rid
    cases hsnd : (Memory.deleteRequest
        (Memory.deleteRequest st wid rid).fst wid rid).snd
    · rfl
    · exfalso
      rcases (memory_deleteRequest_snd_iff _ wid rid).mp hsnd with
        ⟨r, hr, hrid⟩
      have := memory_deleteRequest_stored st wid rid r hr
      rw [hrid] at this
      simp at this
  · intro st wid rid
    cases hsnd : (D1.deleteRequest
        (D1.deleteRequest st wid rid).fst wid rid).snd
    · rfl
    · exfalso
      rcases (d1_deleteRequest_snd_iff _ wid rid).mp hsnd with
        ⟨row, hrow, hwid, hrid⟩
      have hmem : row ∈ (D1.deleteRequest st wid rid).fst.requests := hrow
      have hf := List.of_mem_filter (by exact hmem)
      rw [hwid, hrid] at hf
      simp at hf

/-- C3: with no backend override and neither binding usable, resolution
throws the hard configuration error when the production flag is set, and
otherwise falls back to the memory backend while logging a warning. -/
theorem c3_no_override_resolution (env : EnvHelper.EnvSnapshot)
    (hs : env.storageProviderSetting = none)
    (hdb : env.webhookDb = none)
    (hr2 : env.webhookStorage = false) :
    (env.nodeEnvProduction = true →
      EnvHelper.getPreferredStorageProvider env =
        Except.error (.jsError EnvHelper.productionNoStorageMsg)) ∧
    (env.nodeEnvProduction = false →
      EnvHelper.getPreferredStorageProvider env =
        Except.ok ⟨.memory, [EnvHelper.memoryFallbackWarning]⟩) := by
  constructor <;> intro hp <;>
    simp [EnvHelper.getPreferredStorageProvider, EnvHelper.isD1Available,
      EnvHelper.isR2Available, hs, hdb, hr2, hp]

/-- C3 witness: the two scenarios at concrete environments. -/
theorem c3_no_override_resolution_witness :
    EnvHelper.getPreferredStorageProvider ⟨none, false, none, true⟩ =
      Except.error (.jsError EnvHelper.productionNoStorageMsg) ∧
    EnvHelper.getPreferredStorageProvider ⟨none, false, none, false⟩ =
      Except.ok ⟨.memory, [EnvHelper.memoryFallbackWarning]⟩ :=
  ⟨(c3_no_override_resolution ⟨none, false, none, true⟩ rfl rfl rfl).1 rfl,
   (c3_no_override_resolution ⟨none, false, none, false⟩ rfl rfl rfl).2 rfl⟩

/-- C4: with the override set to the table backend and the binding either
absent or lacking the query-preparation method, resolution always throws
`StorageError.d1BindingNotFound("WEBHOOK_DB")`, whose binding-error
predicate holds. -/
theorem c4_override_d1_binding (env : EnvHelper.EnvSnapshot)
    (hs : env.storageProviderSetting = some "d1")
    (hdb : env.webhookDb = none ∨
      ∃ db, env.webhookDb = some db ∧ db.hasPrepareMethod = false) :
    EnvHelper.getPreferredStorageProvider env =
      Except.error (.storageErr (StorageError.d1BindingNotFound "WEBHOOK_DB")) ∧
    (StorageError.d1BindingNotFound "WEBHOOK_DB").isD1BindingError = true := by
  have hav : EnvHelper.isD1Available env = false := by
    rcases hdb with h | ⟨db, hdb, hprep⟩
    · simp [EnvHelper.isD1Available, h]
    · simp [EnvHelper.isD1Available, hdb, hprep]
  constructor
  · simp [EnvHelper.getPreferredStorageProvider, hs, hav]
  · simp [StorageError.isD1BindingError, StorageError.d1BindingNotFound]

/-- C4 witness: a missing binding and a prepare-less stub binding, both
with the override set to the table backend. -/
theorem c4_override_d1_binding_witness :
    (EnvHelper.getPreferredStorageProvider ⟨none, true, some "d1", true⟩ =
      Except.error
        (.storageErr (StorageError.d1BindingNotFound "WEBHOOK_DB")) ∧
     (StorageError.d1BindingNotFound "WEBHOOK_DB").isD1BindingError = true) ∧
    EnvHelper.getPreferredStorageProvider
        ⟨some ⟨false⟩, false, some "d1", false⟩ =
      Except.error
        (.storageErr (StorageError.d1BindingNotFound "WEBHOOK_DB")) :=
  ⟨c4_override_d1_binding ⟨none, true, some "d1", true⟩ rfl (Or.inl rfl),
   (c4_override_d1_binding ⟨some ⟨false⟩, false, some "d1", false⟩ rfl
     (Or.inr ⟨⟨false⟩, rfl, rfl⟩)).1⟩

/-- C5: the table backend's config round trip is broken, contradicting the
schema (`created_at` defaults to epoch seconds) and the read-side
conversion comment. `saveWebhookConfig` binds `createdAt.getTime()` —
epoch milliseconds — while `rowToWebhookConfig` multiplies the stored value
by 1000 as if it were epoch seconds, so a config saved with
`createdAt = 1700000000000` is read back with `createdAt` multiplied by
1000, and the round trip does not preserve the timestamp. -/
theorem c5_d1_config_timestamp_code_bug :
    ((D1.getWebhookConfig
        (D1.saveWebhookConfig D1.State.empty
          ⟨"w1", none, "https://example.com/w/w1", true, 0,
           1700000000000, none⟩)
        "w1").map (fun c => c.createdAt) = some 1700000000000000) ∧
    (1700000000000000 : Int) ≠ 1700000000000 := by
  refine ⟨rfl, by decide⟩

/-- C9: the D1 `saveRequest` control flow. A successful insert runs once; a
failure whose message contains `'no such table'` clears the initialized
flag, re-runs initialization and retries the insert exactly once (a failing
retry is surfaced wrapped, never retried again); any other failure is
surfaced immediately without a retry. -/
theorem c9_d1_retry (init : Bool) (f s : D1.InsertOutcome) :
    (f = .ok →
      (D1.saveRequestControl init f s).insertAttempts = 1 ∧
      (D1.saveRequestControl init f s).result = Except.ok ()) ∧
    (∀ msg, f = .fail msg → strContains msg "no such table" = true →
      (D1.saveRequestControl init f s).insertAttempts = 2 ∧
      (D1.saveRequestControl init f s).initRuns =
        (if init then 0 else 1) + 1 ∧
      (s = .ok →
        (D1.saveRequestControl init f s).result = Except.ok ()) ∧
      (∀ msg2, s = .fail msg2 →
        (D1.saveRequestControl init f s).result =
          Except.error (StorageError.basic
            ("Failed to save request after retry: " ++ msg2) "d1"))) ∧
    (∀ msg, f = .fail msg → strContains msg "no such table" = false →
      (D1.saveRequestControl init f s).insertAttempts = 1 ∧
      (D1.saveRequestControl init f s).result =
        Except.error (StorageError.basic
          ("Failed to save request: " ++ msg) "d1")) := by
  refine ⟨?_, ?_, ?_⟩
  · rintro rfl
    exact ⟨rfl, rfl⟩
  · rintro msg rfl hmsg
    refine ⟨?_, ?_, ?_, ?_⟩
    · cases s <;> simp [D1.saveRequestControl, hmsg]
    · cases s <;> simp [D1.saveRequestControl, hmsg]
    · rintro rfl
      simp [D1.saveRequestControl, hmsg]
    · rintro msg2 rfl
      simp [D1.saveRequestControl, hmsg]
  · rintro msg rfl hmsg
    constructor
    · simp [D1.saveRequestControl, hmsg]
    · simp [D1.saveRequestControl, hmsg]

/-- C9 witness: a first insert failing with a missing-table message and a
retry that also fails; the operation runs exactly two inserts, one re-
initialization, and surfaces the wrapped retry error. -/
theorem c9_d1_retry_witness :
    (D1.saveRequestControl true
        (.fail "Error: no such table: webhook_requests")
        (.fail "still broken")).insertAttempts = 2 ∧
    (D1.saveRequestControl true
        (.fail "Error: no such table: webhook_requests")
        (.fail "still broken")).initRuns = (if true then 0 else 1) + 1 ∧
    (D1.saveRequestControl true
        (.fail "Error: no such table: webhook_requests")
        (.fail "still broken")).result =
      Except.error (StorageError.basic
        ("Failed to save request after retry: " ++ "still broken") "d1") := by
  have h := (c9_d1_retry true
      (.fail "Error: no such table: webhook_requests")
      (.fail "still broken")).2.1
    "Error: no such table: webhook_requests" rfl (by decide)
  exact ⟨h.1, h.2.1, h.2.2.2 "still broken" rfl⟩

/-- A left fold that appends the hits of a fallible function collects
exactly `filterMap`. -/
lemma foldl_collect_eq_filterMap {α β : Type} (f : α → Option β)
    (l : List α) (acc : List β) :
    l.foldl (fun acc a => acc ++ (f a).toList) acc = acc ++ l.filterMap f := by
  induction l generalizing acc with
  | nil => simp
  | cons a rest ih =>
      rw [List.foldl_cons, List.filterMap_cons]
      cases h : f a with
      | none => simpa using ih acc
      | some b => simpa [List.append_assoc] using ih (acc ++ [b])

/-- C10: the object backend's `getRequests` never fails on a bad object:
over the listed, sorted and sliced keys it returns exactly the requests
whose object still exists at fetch time and whose body parses as JSON —
vanished objects and unparseable bodies are silently skipped. -/
theorem c10_r2_get_requests_tolerant
    (listSnapshot current : R2.Bucket) (pathPfx webhookId : String)
    (limit offset : Nat) :
    R2.getRequests listSnapshot current pathPfx webhookId limit offset =
      (R2.listedSlice listSnapshot pathPfx webhookId limit offset).filterMap
        (fun o => (R2.get current o.key).bind R2.parseRequestBody) := by
  unfold R2.getRequests
  have hfun : (fun (acc : List WebhookRequest) (o : R2.Obj) =>
      match R2.get current o.key with
      | none => acc
      | some body =>
          match R2.parseRequestBody body with
          | none => acc
          | some r => acc ++ [r]) =
      (fun acc o => acc ++
        ((R2.get current o.key).bind R2.parseRequestBody).toList) := by
    funext acc o
    cases hg : R2.get current o.key with
    | none => simp
    | some body => cases hp : R2.parseRequestBody body <;> simp [hp]
  rw [hfun, foldl_collect_eq_filterMap]
  simp

/-- Padding a truncated list before re-truncating changes nothing. -/
lemma take_append_take {α : Type} (A B : List α) (m : Nat) :
    (A ++ B.take m).take m = (A ++ B).take m := by
  rw [List.take_append_eq_append_take, List.take_append_eq_append_take,
    List.take_take]
  congr 1
  exact congrArg B.take (Nat.min_eq_left (Nat.sub_le m A.length))

/-- Sequentially feeding a list of requests for one webhook into the
volatile backend, oldest first (a test driver for P1/Scenario B). -/
def Memory.saveSeq (cfg : Memory.Config) (wid : String)
    (rs : List WebhookRequest) (st : Memory.State) : Memory.State :=
  rs.foldl (fun st r => Memory.saveRequest cfg st wid r) st

/-- One volatile save turns the stored list into `(request :: old).take cap`. -/
lemma memory_saveRequest_stored (cfg : Memory.Config) (st : Memory.State)
    (wid : String) (r : WebhookRequest) :
    amGet (Memory.saveRequest cfg st wid r).requests wid =
      some ((r :: (amGet st.requests wid).getD []).take
        cfg.maxRequestsPerWebhook) := by
  unfold Memory.saveRequest
  dsimp only
  rw [amGet_amSet]
  congr 1
  by_cases h : (r :: (amGet st.requests wid).getD []).length >
      cfg.maxRequestsPerWebhook
  · rw [if_pos h]
  · rw [if_neg h]
    push_neg at h
    exact (List.take_of_length_le h).symm

/-- After saving `rs` in order on top of a stored list `L.take cap`, the
volatile backend stores `(rs.reverse ++ L).take cap`: newest first, capped. -/
lemma memory_saveSeq_stored (cfg : Memory.Config) (wid : String)
    (rs : List WebhookRequest) (st : Memory.State) (L : List WebhookRequest)
    (hL : (amGet st.requests wid).getD [] =
      L.take cfg.maxRequestsPerWebhook) :
    (amGet (Memory.saveSeq cfg wid rs st).requests wid).getD [] =
      (rs.reverse ++ L).take cfg.maxRequestsPerWebhook := by
  induction rs generalizing st L with
  | nil =>
      unfold Memory.saveSeq
      simpa using hL
  | cons r rest ih =>
      unfold Memory.saveSeq
      rw [List.foldl_cons]
      have hstep := memory_saveRequest_stored cfg st wid r
      rw [hL] at hstep
      have hstep' : (amGet (Memory.saveRequest cfg st wid r).requests
          wid).getD [] = (r :: L).take cfg.maxRequestsPerWebhook := by
        rw [hstep, Option.getD_some]
        have := take_append_take [r] L cfg.maxRequestsPerWebhook
        simpa using this
      have := ih (Memory.saveRequest cfg st wid r) (r :: L) hstep'
      unfold Memory.saveSeq at this
      rw [this]
      congr 1
      simp

/-- The stored list of a fresh volatile backend is empty. -/
lemma memory_empty_stored (t0 : Int) (wid : String) :
    (amGet (Memory.State.empty t0).requests wid).getD [] = [] := rfl

/-- A small concrete capture used by the concrete scenarios. -/
def sampleReq (id : String) (ts : Int) : WebhookRequest :=
  ⟨id, "w", "POST", "/hook", [], "", [], ts, none, none, none, 0⟩

/-- A small concrete webhook config. -/
def sampleCfg : WebhookConfig :=
  ⟨"w", none, "https://example.com/w/w", true, 0, 1000, none⟩

/-- C1 counterexample: with `maxRequestsPerWebhook = 2`, saving three
requests sequentially on the table backend evicts nothing — `getRequests`
returns all three entries, exceeding the cap the claim promises for every
backend. (The table backend receives `maxRequestsPerWebhook` in its config
but never reads it on the write path.) -/
theorem c1_cap_counterexample :
    (((D1.saveRequest D1.State.empty "w" (sampleReq "r1" 1000)).bind
        (fun st => D1.saveRequest st "w" (sampleReq "r2" 2000))).bind
        (fun st => D1.saveRequest st "w" (sampleReq "r3" 3000))).map
      (fun st => (D1.getRequests st "w" 100 0).length) = Except.ok 3 ∧
    ¬ (3 ≤ 2) := by
  refine ⟨rfl, by decide⟩

/-- C1 (amended): only the volatile backend enforces the cap — after saving
any sequence of requests into a fresh instance, its `getRequests` returns
the capped newest-first list (never more than `maxRequestsPerWebhook`
entries, the most-recently-inserted ones). The table and object backends
evict nothing on save: the table insert appends a row keeping every
existing row, and the object put keeps every object under a different
key. -/
theorem c1_cap_amended :
    (∀ (cfg : Memory.Config) (t0 : Int) (wid : String)
        (rs : List WebhookRequest) (limit : Nat),
        (Memory.getRequests (Memory.saveSeq cfg wid rs
            (Memory.State.empty t0)) wid limit 0).snd =
          (rs.reverse.take cfg.maxRequestsPerWebhook).take limit ∧
        (Memory.getRequests (Memory.saveSeq cfg wid rs
            (Memory.State.empty t0)) wid limit 0).snd.length ≤
          cfg.maxRequestsPerWebhook) ∧
    (∀ (st : D1.State) (wid : String) (r : WebhookRequest),
        (∀ row ∈ st.requests, row.id ≠ r.id) →
        D1.saveRequest st wid r = Except.ok
          { st with requests := st.requests ++ [D1.rowOfRequest wid r] }) ∧
    (∀ (b : R2.Bucket) (pathPfx wid : String) (r : WebhookRequest)
        (now : Int), ∀ o ∈ b.objects,
        o.key ≠ R2.requestKey pathPfx wid r.id →
        o ∈ (R2.saveRequest b pathPfx wid r now).objects) := by
  refine ⟨?_, ?_, ?_⟩
  · intro cfg t0 wid rs limit
    have hst := memory_saveSeq_stored cfg wid rs (Memory.State.empty t0) []
      (by simp [memory_empty_stored])
    unfold Memory.getRequests
    dsimp only
    rw [hst]
    simp only [List.append_nil, List.drop_zero]
    refine ⟨trivial, ?_⟩
    calc ((rs.reverse.take cfg.maxRequestsPerWebhook).take limit).length
        ≤ (rs.reverse.take cfg.maxRequestsPerWebhook).length :=
          List.length_take_le' _ _
      _ ≤ cfg.maxRequestsPerWebhook := List.length_take_le _ _
  · intro st wid r h
    unfold D1.saveRequest
    rw [if_neg ?_]
    intro hany
    rw [List.any_eq_true] at hany
    rcases hany with ⟨row, hrow, hid⟩
    exact h row hrow (by simpa using hid)
  · intro b pathPfx wid r now o ho hkey
    unfold R2.saveRequest R2.put
    dsimp only
    refine List.mem_append_left _ (List.mem_filter.mpr ⟨ho, ?_⟩)
    simp [hkey]

/-- C1 witness: the amended statement at Scenario B's data — cap 2, three
saves; the volatile backend returns `[R3, R2]`, and the other backends
preserve existing data on save. -/
theorem c1_cap_amended_witness :
    (Memory.getRequests (Memory.saveSeq ⟨24, 2⟩ "w"
        [sampleReq "r1" 1000, sampleReq "r2" 2000, sampleReq "r3" 3000]
        (Memory.State.empty 0)) "w" 100 0).snd =
      ([sampleReq "r1" 1000, sampleReq "r2" 2000,
        sampleReq "r3" 3000].reverse.take 2).take 100 ∧
    D1.saveRequest D1.State.empty "w" (sampleReq "r1" 1000) = Except.ok
      { D1.State.empty with requests := D1.State.empty.requests ++
          [D1.rowOfRequest "w" (sampleReq "r1" 1000)] } ∧
    ⟨"k", R2.Body.invalidJson "x", 5⟩ ∈
      (R2.saveRequest ⟨[⟨"k", R2.Body.invalidJson "x", 5⟩]⟩ "cf-webhook" "w"
        (sampleReq "r1" 1000) 9).objects :=
  ⟨(c1_cap_amended.1 ⟨24, 2⟩ 0 "w"
      [sampleReq "r1" 1000, sampleReq "r2" 2000, sampleReq "r3" 3000]
      100).1,
   c1_cap_amended.2.1 D1.State.empty "w" (sampleReq "r1" 1000) (by decide),
   c1_cap_amended.2.2 ⟨[⟨"k", R2.Body.invalidJson "x", 5⟩]⟩ "cf-webhook" "w"
     (sampleReq "r1" 1000) 9 ⟨"k", R2.Body.invalidJson "x", 5⟩
     (by decide) (by decide)⟩

/-- C2 counterexample: on the table backend, after storing a config and a
request for webhook `"w"`, `deleteWebhookConfig("w")` removes the config
(and returns `true`) but a subsequent `getRequests("w")` still returns the
stored request — not the empty list the claim promises. -/
theorem c2_cascade_counterexample :
    (D1.saveRequest (D1.saveWebhookConfig D1.State.empty sampleCfg) "w"
        (sampleReq "r1" 1000)).map
      (fun st =>
        ((D1.getRequests (D1.deleteWebhookConfig st "w").fst "w" 100 0).length,
         D1.getWebhookConfig (D1.deleteWebhookConfig st "w").fst "w",
         (D1.deleteWebhookConfig st "w").snd)) =
      Except.ok (1, none, true) ∧ (1 : Nat) ≠ 0 := by
  refine ⟨rfl, by decide⟩

/-- C2 (amended): only the volatile backend cascades — when the config
exists, its `deleteWebhookConfig` also drops the webhook's requests, so
`getRequests` afterwards returns `[]`. The table backend's
`deleteWebhookConfig` leaves the requests table (hence `getRequests`)
unchanged, and the object backend deletes only the config object, keeping
every object under any other key. -/
theorem c2_cascade_amended :
    (∀ (st : Memory.State) (wid : String) (limit offset : Nat),
        amHas st.configs wid = true →
        (Memory.getRequests (Memory.deleteWebhookConfig st wid).fst wid
          limit offset).snd = [] ∧
        (Memory.deleteWebhookConfig st wid).snd = true) ∧
    (∀ (st : D1.State) (wid : String),
        (D1.deleteWebhookConfig st wid).fst.requests = st.requests) ∧
    (∀ (st : D1.State) (wid wid' : String) (limit offset : Nat),
        D1.getRequests (D1.deleteWebhookConfig st wid).fst wid' limit offset
          = D1.getRequests st wid' limit offset) ∧
    (∀ (b : R2.Bucket) (pathPfx wid : String), ∀ o ∈ b.objects,
        o.key ≠ R2.configKey pathPfx wid →
        o ∈ (R2.deleteWebhookConfig b pathPfx wid).fst.objects) := by
  refine ⟨?_, fun _ _ => rfl, fun _ _ _ _ _ => rfl, ?_⟩
  · intro st wid limit offset hhas
    refine ⟨?_, hhas⟩
    unfold Memory.getRequests Memory.deleteWebhookConfig
    dsimp only
    rw [if_pos hhas, amGet_amErase]
    simp
  · intro b pathPfx wid o ho hkey
    unfold R2.deleteWebhookConfig R2.del
    dsimp only
    refine List.mem_filter.mpr ⟨ho, ?_⟩
    simp [hkey]

/-- C2 witness: the amended statement at a concrete state holding one
config and one request per backend. -/
theorem c2_cascade_amended_witness :
    (Memory.getRequests (Memory.deleteWebhookConfig
        ⟨[("w", [sampleReq "r1" 1000])], [("w", sampleCfg)], 0, 0⟩ "w").fst
        "w" 100 0).snd = [] ∧
    (Memory.deleteWebhookConfig
        ⟨[("w", [sampleReq "r1" 1000])], [("w", sampleCfg)], 0, 0⟩ "w").snd
      = true ∧
    ⟨"cf-webhook/requests/w/r1.json", R2.Body.requestJson
        (sampleReq "r1" 1000), 5⟩ ∈
      (R2.deleteWebhookConfig
        ⟨[⟨"cf-webhook/requests/w/r1.json", R2.Body.requestJson
            (sampleReq "r1" 1000), 5⟩]⟩ "cf-webhook" "w").fst.objects := by
  have h := c2_cascade_amended.1
    ⟨[("w", [sampleReq "r1" 1000])], [("w", sampleCfg)], 0, 0⟩ "w" 100 0
    (by decide)
  exact ⟨h.1, h.2, c2_cascade_amended.2.2.2
    ⟨[⟨"cf-webhook/requests/w/r1.json", R2.Body.requestJson
        (sampleReq "r1" 1000), 5⟩]⟩ "cf-webhook" "w"
    ⟨"cf-webhook/requests/w/r1.json", R2.Body.requestJson
        (sampleReq "r1" 1000), 5⟩ (by decide) (by decide)⟩

/-- Over keys without duplicates, the indicator sums to the `any` test. -/
lemma sum_indicator_nodup (ms : List String) (hnd : ms.Nodup) (w : String) :
    (ms.map (fun m => if (w == m) = true then 1 else 0)).sum =
      (if ms.any (fun m => w == m) = true then 1 else 0) := by
  induction ms with
  | nil => simp
  | cons m rest ih =>
      rcases List.nodup_cons.mp hnd with ⟨hm, hrest⟩
      rw [List.map_cons, List.sum_cons]
      by_cases h : (w == m) = true
      · have hw : w = m := eq_of_beq h
        have hz : (rest.map
            (fun m' => if (w == m') = true then 1 else 0)).sum = 0 := by
          apply List.sum_eq_zero
          intro n hn
          rcases List.mem_map.mp hn with ⟨m', hm', hval⟩
          by_cases h2 : (w == m') = true
          · exfalso
            apply hm
            have hmm : m = m' := by
              rw [← hw]
              exact eq_of_beq h2
            rw [hmm]
            exact hm'
          · rw [← hval, if_neg h2]
        have hany : ((m :: rest).any (fun m' => w == m')) = true := by
          rw [List.any_cons, h, Bool.true_or]
        rw [if_pos h, hz, if_pos hany]
      · have h' : (w == m) = false := by
          cases h2 : w == m
          · rfl
          · exact absurd h2 h
        have hany : ((m :: rest).any (fun m' => w == m')) =
            rest.any (fun m' => w == m') := by
          rw [List.any_cons, h', Bool.false_or]
        simp only [if_neg h, hany, Nat.zero_add]
        exact ih hrest

/-- Summing per-key `countP`s over duplicate-free keys counts the elements
whose key occurs in the list. -/
lemma sum_countP_nodup {α : Type} (f : α → String) (ms : List String)
    (hnd : ms.Nodup) (l : List α) :
    (ms.map (fun m => l.countP (fun x => f x == m))).sum =
      l.countP (fun x => ms.any (fun m => f x == m)) := by
  induction l with
  | nil => simp
  | cons x rest ih =>
      simp only [List.countP_cons]
      rw [List.sum_map_add, ih, Nat.add_comm, Nat.add_comm
        (rest.countP (fun x => ms.any (fun m => f x == m)))]
      congr 1
      exact sum_indicator_nodup ms hnd (f x)

/-- Grouping a list by the distinct values of a key function partitions it:
the group sizes sum to the length. -/
lemma sum_counts_eq_length {α : Type} (f : α → String) (l : List α) :
    (((l.map f).dedup).map
      (fun m => (l.filter (fun x => f x == m)).length)).sum = l.length := by
  have hfilter : ∀ m : String,
      (l.filter (fun x => f x == m)).length =
        l.countP (fun x => f x == m) := by
    intro m
    rw [List.countP_eq_length_filter]
  calc (((l.map f).dedup).map
        (fun m => (l.filter (fun x => f x == m)).length)).sum
      = (((l.map f).dedup).map
        (fun m => l.countP (fun x => f x == m))).sum := by
        congr 1
        exact List.map_congr_left (fun m _ => hfilter m)
    _ = l.countP (fun x => ((l.map f).dedup).any (fun m => f x == m)) :=
        sum_countP_nodup f _ (List.nodup_dedup _) l
    _ = l.length := by
        rw [List.countP_eq_length]
        intro x hx
        rw [List.any_eq_true]
        exact ⟨f x, List.mem_dedup.mpr (List.mem_map_of_mem f hx), by simp⟩

/-- Percentages of a common total sum to the percentage of the summed
counts. -/
lemma sum_pct {α : Type} (l : List α) (f : α → Nat) (T : ℚ) :
    (l.map (fun a => ((f a : ℚ) / T) * 100)).sum =
      (((l.map f).sum : ℚ) / T) * 100 := by
  induction l with
  | nil => simp
  | cons a rest ih =>
      simp only [List.map_cons, List.sum_cons, ih]
      push_cast
      ring

/-- When requests exist, the method-distribution percentages sum to exactly
100 (the groups partition the requests). -/
lemma methodDistribution_pct_sum {α : Type} (method : α → String)
    (size : α → Nat) (l : List α) (h : 0 < l.length) :
    ((Stats.methodDistributionOf method size l).map
      (fun d => d.percentage)).sum = 100 := by
  unfold Stats.methodDistributionOf
  have hperm := List.perm_insertionSort
    (fun a b : Stats.MethodDistribution => b.count ≤ a.count)
    (((l.map method).dedup).map (fun m =>
      let group := l.filter (fun x => method x == m)
      { method := m
        count := group.length
        percentage := if l.length > 0 then ((group.length : ℚ) / l.length) * 100
                      else 0
        totalSize := (group.map size).sum
        : Stats.MethodDistribution }))
  rw [((hperm.map (fun d => d.percentage)).sum_eq)]
  rw [List.map_map]
  have hcomp : ((fun d : Stats.MethodDistribution => d.percentage) ∘
      (fun m =>
        let group := l.filter (fun x => method x == m)
        { method := m
          count := group.length
          percentage := if l.length > 0 then
              ((group.length : ℚ) / l.length) * 100 else 0
          totalSize := (group.map size).sum
          : Stats.MethodDistribution })) =
      (fun m => (((l.filter (fun x => method x == m)).length : ℚ) /
        l.length) * 100) := by
    funext m
    simp [h]
  rw [hcomp, sum_pct]
  have hsum := sum_counts_eq_length method l
  rw [hsum]
  rw [div_mul_eq_mul_div, div_eq_iff]
  · ring
  · exact_mod_cast Nat.pos_iff_ne_zero.mp h

/-- With no requests there are no methods, hence no method entries. -/
lemma methodDistribution_zero {α : Type} (method : α → String)
    (size : α → Nat) (l : List α) (h : l.length = 0) :
    Stats.methodDistributionOf method size l = [] := by
  rw [List.length_eq_zero.mp h]
  rfl

/-- With no requests every size-bucket percentage is zero. -/
lemma sizeDistribution_pct_zero {α : Type} (size : α → Nat) (l : List α)
    (h : l.length = 0) :
    ∀ d ∈ Stats.sizeDistributionOf size l, d.percentage = 0 := by
  intro d hd
  simp only [Stats.sizeDistributionOf] at hd
  rcases List.mem_map.mp hd with ⟨r, _, hval⟩
  rw [← hval]
  simp [h]

/-- With no requests every time-bucket percentage is zero. -/
lemma timeDistribution_pct_zero {α : Type} (ts : α → Int) (now : Int)
    (l : List α) (h : l.length = 0) :
    ∀ d ∈ Stats.timeDistributionOf ts now l, d.percentage = 0 := by
  intro d hd
  simp only [Stats.timeDistributionOf] at hd
  rcases List.mem_map.mp hd with ⟨r, _, hval⟩
  rw [← hval]
  simp [h]

/-- On the volatile backend, the per-webhook request counts always sum to
the total request count: every stored request belongs to exactly one entry
of the requests map. -/
lemma memory_wd_sum (st : Memory.State) (now : Int) :
    ((Memory.getStats st now).webhookDistribution.map
      (fun d => d.requestCount)).sum =
      (Memory.getStats st now).totalRequests := by
  have h1 : (Memory.getStats st now).webhookDistribution =
      (Memory.webhookDistributionOf st).insertionSort
        (fun a b => b.requestCount ≤ a.requestCount) := rfl
  have h2 : (Memory.getStats st now).totalRequests =
      (Memory.allRequestsOf st).length := rfl
  rw [h1, h2]
  rw [((List.perm_insertionSort
    (fun a b : Stats.WebhookDistribution => b.requestCount ≤ a.requestCount)
    (Memory.webhookDistributionOf st)).map
      (fun d => d.requestCount)).sum_eq]
  unfold Memory.webhookDistributionOf
  rw [List.map_map]
  trans (st.requests.map
    (fun p : String × List WebhookRequest => p.snd.length)).sum
  · exact congrArg List.sum (List.map_congr_left (fun p _ => rfl))
  · unfold Memory.allRequestsOf
    rw [List.length_flatten, List.map_map]
    rfl

/-- On the table backend, the per-webhook request counts sum to the number
of request rows whose webhook id has a config row (config ids unique). -/
lemma d1_wd_sum (st : D1.State) (now : Int)
    (hnd : (st.configs.map (fun row => row.id)).Nodup) :
    ((D1.getStats st now).webhookDistribution.map
      (fun d => d.requestCount)).sum =
      st.requests.countP
        (fun row => st.configs.any
          (fun crow => row.webhook_id == crow.id)) := by
  have h1 : (D1.getStats st now).webhookDistribution =
      (D1.webhookDistributionOf st).insertionSort
        (fun a b => b.requestCount ≤ a.requestCount) := rfl
  rw [h1]
  rw [((List.perm_insertionSort
    (fun a b : Stats.WebhookDistribution => b.requestCount ≤ a.requestCount)
    (D1.webhookDistributionOf st)).map
      (fun d => d.requestCount)).sum_eq]
  unfold D1.webhookDistributionOf
  rw [List.map_map]
  trans ((D1.getAllWebhookConfigs st).map
    (fun c : WebhookConfig => (D1.allRequestsOf st).countP
      (fun row => row.webhook_id == c.id))).sum
  · exact congrArg List.sum (List.map_congr_left
      (fun c _ => (List.countP_eq_length_filter _ _).symm))
  have h4 : (D1.getAllWebhookConfigs st).map
      (fun c => (D1.allRequestsOf st).countP
        (fun row => row.webhook_id == c.id)) =
      ((D1.getAllWebhookConfigs st).map (fun c => c.id)).map
        (fun i => (D1.allRequestsOf st).countP
          (fun row => row.webhook_id == i)) := by
    rw [List.map_map]
    exact List.map_congr_left (fun c _ => rfl)
  rw [h4]
  have hpermIds : ((D1.getAllWebhookConfigs st).map (fun c => c.id)).Perm
      (st.configs.map (fun row => row.id)) := by
    unfold D1.getAllWebhookConfigs
    rw [List.map_map]
    have h5 : (List.map ((fun c : WebhookConfig => c.id) ∘
        D1.rowToWebhookConfig)
        (st.configs.insertionSort
          (fun a b => b.created_at ≤ a.created_at))) =
        (List.map (fun row : D1.ConfigRow => row.id)
          (st.configs.insertionSort
            (fun a b => b.created_at ≤ a.created_at))) :=
      List.map_congr_left (fun row _ => rfl)
    rw [h5]
    exact (List.perm_insertionSort _ _).map _
  have hndIds : ((D1.getAllWebhookConfigs st).map (fun c => c.id)).Nodup :=
    (hpermIds.nodup_iff).mpr hnd
  trans ((D1.allRequestsOf st).countP (fun row =>
    (((D1.getAllWebhookConfigs st).map (fun c => c.id)).any
      (fun i => row.webhook_id == i))))
  · exact sum_countP_nodup (fun row => row.webhook_id) _ hndIds
      (D1.allRequestsOf st)
  · have hpredEq : ∀ row : D1.RequestRow,
        (((D1.getAllWebhookConfigs st).map (fun c => c.id)).any
          (fun i => row.webhook_id == i)) =
        (st.configs.any (fun crow => row.webhook_id == crow.id)) := by
      intro row
      cases hA : ((D1.getAllWebhookConfigs st).map (fun c => c.id)).any
          (fun i => row.webhook_id == i) <;>
        cases hB : st.configs.any (fun crow => row.webhook_id == crow.id)
      · rfl
      · exfalso
        rw [List.any_eq_true] at hB
        rcases hB with ⟨crow, hcrow, hbeq⟩
        have hh : (((D1.getAllWebhookConfigs st).map (fun c => c.id)).any
            (fun i => row.webhook_id == i)) = true := by
          rw [List.any_eq_true]
          exact ⟨crow.id, hpermIds.mem_iff.mpr
            (List.mem_map_of_mem _ hcrow), hbeq⟩
        rw [hA] at hh
        exact Bool.false_ne_true hh
      · exfalso
        rw [List.any_eq_true] at hA
        rcases hA with ⟨i, hi, hbeq⟩
        rcases List.mem_map.mp (hpermIds.mem_iff.mp hi) with
          ⟨crow, hcrow, hid⟩
        have hh : (st.configs.any
            (fun crow => row.webhook_id == crow.id)) = true := by
          rw [List.any_eq_true]
          refine ⟨crow, hcrow, ?_⟩
          rw [hid]
          exact hbeq
        rw [hB] at hh
        exact Bool.false_ne_true hh
      · rfl
    calc (D1.allRequestsOf st).countP (fun row =>
          (((D1.getAllWebhookConfigs st).map (fun c => c.id)).any
            (fun i => row.webhook_id == i)))
        = (D1.allRequestsOf st).countP (fun row =>
            st.configs.any (fun crow => row.webhook_id == crow.id)) :=
          List.countP_congr (fun row _ => by rw [hpredEq row])
      _ = st.requests.countP (fun row =>
            st.configs.any (fun crow => row.webhook_id == crow.id)) :=
          List.Perm.countP_eq _
            (List.perm_insertionSort (fun a b : D1.RequestRow =>
              b.timestamp ≤ a.timestamp) st.requests)

/-- C8 counterexample: on the table backend, a stored request whose webhook
id has no config row ("orphan", reachable because `deleteWebhookConfig`
does not cascade) is counted in `totalRequests` but appears in no
`webhookDistribution` entry, so the claimed sum equality fails. -/
theorem c8_stats_counterexample :
    (D1.getStats ⟨[D1.rowOfRequest "w" (sampleReq "r1" 1000)], []⟩
      0).totalRequests = 1 ∧
    ((D1.getStats ⟨[D1.rowOfRequest "w" (sampleReq "r1" 1000)], []⟩
      0).webhookDistribution.map (fun d => d.requestCount)).sum = 0 ∧
    (0 : Nat) ≠ 1 := by
  refine ⟨rfl, rfl, by decide⟩

/-- C8 (amended): on the memory backend the webhook-distribution request
counts always sum to `totalRequests`; on the table backend they instead sum
to the number of stored request rows whose webhook id has a config row
(hence at most `totalRequests`, with a shortfall exactly for orphan
requests). On both backends the method-distribution percentages sum to
exactly 100 (exact arithmetic) whenever `totalRequests > 0`, and when
`totalRequests = 0` the method distribution is empty and every percentage
field (webhook, size, time, average size) is 0 — never a division by
zero. -/
theorem c8_stats_amended :
    (∀ (st : Memory.State) (now : Int),
        ((Memory.getStats st now).webhookDistribution.map
          (fun d => d.requestCount)).sum =
          (Memory.getStats st now).totalRequests) ∧
    (∀ (st : Memory.State) (now : Int),
        (Memory.getStats st now).totalRequests > 0 →
        ((Memory.getStats st now).requestMethodDistribution.map
          (fun d => d.percentage)).sum = 100) ∧
    (∀ (st : Memory.State) (now : Int),
        (Memory.getStats st now).totalRequests = 0 →
        (Memory.getStats st now).requestMethodDistribution = [] ∧
        (∀ d ∈ (Memory.getStats st now).webhookDistribution,
          d.percentage = 0) ∧
        (∀ d ∈ (Memory.getStats st now).requestSizeDistribution,
          d.percentage = 0) ∧
        (∀ d ∈ (Memory.getStats st now).timeDistribution,
          d.percentage = 0) ∧
        (Memory.getStats st now).averageRequestSize = 0) ∧
    (∀ (st : D1.State) (now : Int),
        (st.configs.map (fun row => row.id)).Nodup →
        ((D1.getStats st now).webhookDistribution.map
          (fun d => d.requestCount)).sum =
          st.requests.countP (fun row => st.configs.any
            (fun crow => row.webhook_id == crow.id))) ∧
    (∀ (st : D1.State) (now : Int),
        (st.configs.map (fun row => row.id)).Nodup →
        ((D1.getStats st now).webhookDistribution.map
          (fun d => d.requestCount)).sum ≤
          (D1.getStats st now).totalRequests) ∧
    (∀ (st : D1.State) (now : Int),
        (D1.getStats st now).totalRequests > 0 →
        ((D1.getStats st now).requestMethodDistribution.map
          (fun d => d.percentage)).sum = 100) ∧
    (∀ (st : D1.State) (now : Int),
        (D1.getStats st now).totalRequests = 0 →
        (D1.getStats st now).requestMethodDistribution = [] ∧
        (∀ d ∈ (D1.getStats st now).webhookDistribution,
          d.percentage = 0) ∧
        (∀ d ∈ (D1.getStats st now).requestSizeDistribution,
          d.percentage = 0) ∧
        (∀ d ∈ (D1.getStats st now).timeDistribution,
          d.percentage = 0) ∧
        (D1.getStats st now).averageRequestSize = 0) := by
  refine ⟨memory_wd_sum, ?_, ?_, d1_wd_sum, ?_, ?_, ?_⟩
  · intro st now h
    exact methodDistribution_pct_sum (fun r => r.method)
      (fun r => r.bodySize) (Memory.allRequestsOf st) h
  · intro st now h
    have h0 : (Memory.allRequestsOf st).length = 0 := h
    refine ⟨methodDistribution_zero _ _ _ h0, ?_,
      sizeDistribution_pct_zero _ _ h0,
      timeDistribution_pct_zero _ _ _ h0, ?_⟩
    · intro d hd
      have hd' : d ∈ Memory.webhookDistributionOf st :=
        ((List.perm_insertionSort
          (fun a b : Stats.WebhookDistribution =>
            b.requestCount ≤ a.requestCount)
          (Memory.webhookDistributionOf st)).mem_iff).mp hd
      simp only [Memory.webhookDistributionOf] at hd'
      rcases List.mem_map.mp hd' with ⟨p, _, hval⟩
      rw [← hval]
      simp [h0]
    · show (if (Memory.allRequestsOf st).length > 0 then _ else 0) = 0
      rw [h0]
      simp
  · intro st now hnd
    rw [d1_wd_sum st now hnd]
    have hlen : st.requests.length = (D1.getStats st now).totalRequests :=
      ((List.perm_insertionSort (fun a b : D1.RequestRow =>
        b.timestamp ≤ a.timestamp) st.requests).length_eq).symm
    calc st.requests.countP (fun row => st.configs.any
          (fun crow => row.webhook_id == crow.id))
        ≤ st.requests.length := List.countP_le_length _
      _ = (D1.getStats st now).totalRequests := hlen
  · intro st now h
    exact methodDistribution_pct_sum (fun row => row.method)
      (fun row => row.body_size) (D1.allRequestsOf st) h
  · intro st now h
    have h0 : (D1.allRequestsOf st).length = 0 := h
    refine ⟨methodDistribution_zero _ _ _ h0, ?_,
      sizeDistribution_pct_zero _ _ h0,
      timeDistribution_pct_zero _ _ _ h0, ?_⟩
    · intro d hd
      have hd' : d ∈ D1.webhookDistributionOf st :=
        ((List.perm_insertionSort
          (fun a b : Stats.WebhookDistribution =>
            b.requestCount ≤ a.requestCount)
          (D1.webhookDistributionOf st)).mem_iff).mp hd
      simp only [D1.webhookDistributionOf] at hd'
      rcases List.mem_map.mp hd' with ⟨c, _, hval⟩
      rw [← hval]
      simp [h0]
    · show (if (D1.allRequestsOf st).length > 0 then _ else 0) = 0
      rw [h0]
      simp

/-- C8 witness: the amended statement at concrete states — one request
(percentages sum to 100), the empty state (all zero), and the orphan-row
state on the table backend. -/
theorem c8_stats_amended_witness :
    ((Memory.getStats ⟨[("w", [sampleReq "r1" 1000])], [], 0, 0⟩
        0).requestMethodDistribution.map (fun d => d.percentage)).sum =
      100 ∧
    (Memory.getStats (Memory.State.empty 0)
        0).requestMethodDistribution = [] ∧
    ((D1.getStats ⟨[D1.rowOfRequest "w" (sampleReq "r1" 1000)], []⟩
        0).webhookDistribution.map (fun d => d.requestCount)).sum =
      ([D1.rowOfRequest "w" (sampleReq "r1" 1000)] :
        List D1.RequestRow).countP
        (fun row => ([] : List D1.ConfigRow).any
          (fun crow => row.webhook_id == crow.id)) ∧
    ((D1.getStats ⟨[D1.rowOfRequest "w" (sampleReq "r1" 1000)], []⟩
        0).webhookDistribution.map (fun d => d.requestCount)).sum ≤
      (D1.getStats ⟨[D1.rowOfRequest "w" (sampleReq "r1" 1000)], []⟩
        0).totalRequests :=
  ⟨c8_stats_amended.2.1 ⟨[("w", [sampleReq "r1" 1000])], [], 0, 0⟩ 0
      (by decide),
   (c8_stats_amended.2.2.1 (Memory.State.empty 0) 0 (by decide)).1,
   c8_stats_amended.2.2.2.1 ⟨[D1.rowOfRequest "w" (sampleReq "r1" 1000)], []⟩
     0 (by decide),
   c8_stats_amended.2.2.2.2.1
     ⟨[D1.rowOfRequest "w" (sampleReq "r1" 1000)], []⟩ 0 (by decide)⟩

end CFWebhook
